import Mathlib

/-!
Verification of `update_jdlogistics_json.py` (repository JD-data1).

The script is a single-invocation batch job: it estimates the latest
trading date whose data should already be published (Beijing time,
UTC+8), fetches recent daily bars for one HK-listed symbol, and
conditionally overwrites a one-bar JSON snapshot file.

Shallow embedding conventions:
- A calendar date is its proleptic Gregorian ordinal (Python
  `date.toordinal()`, a positive natural number; `0001-01-01` is `1`).
- `weekday` matches Python `date.weekday()` (Monday = 0 .. Sunday = 6).
- A Beijing wall-clock instant is a structure of ordinal date and
  time-of-day fields; `datetime` comparison is lexicographic on the
  fields, exactly as in CPython.
- Numeric bar fields are rationals; Python `round(x, 2)` is embedded as
  round-half-to-even at two decimals; `int(float(x))` truncates toward
  zero.
- `main` is embedded as a pure function from an explicit world (the two
  environment variables, the existing output file, the provider's
  response, the current time) to a run result recording the raised
  error or the final file state plus whether a write occurred.
-/

/-- Python `date.weekday()` on an ordinal: Monday = 0 .. Sunday = 6.
Ordinal 1 (0001-01-01) is a Monday. -/
def weekday (o : Nat) : Nat := (o + 6) % 7

/-- `prev_weekday` from the source: step back one day while the day is a
Saturday or Sunday.  Real ordinals are ≥ 1; the value at 0 is a junk
value never reached under the theorems' hypotheses (Python would raise
`OverflowError` below `date.min`). -/
def prev_weekday : Nat → Nat
  | 0 => 0
  | n + 1 => if 5 ≤ weekday (n + 1) then prev_weekday n else n + 1

/-- Civil (year, month, day) from a proleptic Gregorian ordinal, the
standard era-based conversion (all quantities stay nonnegative, so `Nat`
division is exact integer division here). -/
def civilFromOrdinal (o : Nat) : Nat × Nat × Nat :=
  let z := o + 305
  let era := z / 146097
  let doe := z % 146097
  let yoe := (doe - doe / 1460 + doe / 36524 - doe / 146096) / 365
  let doy := doe - (365 * yoe + yoe / 4 - yoe / 100)
  let mp := (5 * doy + 2) / 153
  let d := doy - (153 * mp + 2) / 5 + 1
  let m := if mp < 10 then mp + 3 else mp - 9
  let y := yoe + era * 400
  if m ≤ 2 then (y + 1, m, d) else (y, m, d)

/-- Zero-pad a number to two digits. -/
def pad2 (n : Nat) : String :=
  if n < 10 then "0" ++ toString n else toString n

/-- Zero-pad a number to four digits. -/
def pad4 (n : Nat) : String :=
  if n < 10 then "000" ++ toString n
  else if n < 100 then "00" ++ toString n
  else if n < 1000 then "0" ++ toString n
  else toString n

/-- Python `d.strftime("%Y%m%d")` on an ordinal date. -/
def fmtYmd (o : Nat) : String :=
  let c := civilFromOrdinal o
  pad4 c.1 ++ pad2 c.2.1 ++ pad2 c.2.2

/-- Python `s.replace("-", "")`: with a one-character pattern and empty
replacement this is exactly filtering the hyphens out. -/
def stripDashes (s : String) : String :=
  String.mk (s.data.filter (fun c => c ≠ '-'))

/-- Python `str.strip()` default whitespace set. -/
def pyIsSpace (c : Char) : Bool :=
  c = ' ' || c = '\t' || c = '\n' || c = '\r' || c = '\x0b' || c = '\x0c'

/-- Python `s.strip()`: drop leading and trailing whitespace. -/
def pyStrip (s : String) : String :=
  String.mk (((s.data.dropWhile pyIsSpace).reverse.dropWhile pyIsSpace).reverse)

/-- Lower-case a character in the ASCII range (the only case
`str.lower()` needs for the flag values compared here). -/
def asciiLowerChar (c : Char) : Char :=
  if 'A' ≤ c ∧ c ≤ 'Z' then Char.ofNat (c.toNat + 32) else c

/-- Python `s.lower()` restricted to ASCII case mapping. -/
def pyLower (s : String) : String :=
  String.mk (s.data.map asciiLowerChar)

/-- Python string `<`: lexicographic comparison of code points. -/
def strLt : List Char → List Char → Bool
  | [], [] => false
  | [], _ :: _ => true
  | _ :: _, [] => false
  | a :: as, b :: bs =>
    if a.toNat < b.toNat then true
    else if b.toNat < a.toNat then false
    else strLt as bs

/-- A Beijing-time `datetime` value as used by the script: ordinal date
plus time-of-day fields. -/
structure BjDateTime where
  date : Nat
  hour : Nat
  minute : Nat
  second : Nat
  usec : Nat
  deriving DecidableEq, Repr

/-- CPython `datetime` `<=`: lexicographic on
(date, hour, minute, second, microsecond). -/
def dtLe (a b : BjDateTime) : Bool :=
  if a.date ≠ b.date then decide (a.date < b.date)
  else if a.hour ≠ b.hour then decide (a.hour < b.hour)
  else if a.minute ≠ b.minute then decide (a.minute < b.minute)
  else if a.second ≠ b.second then decide (a.second < b.second)
  else decide (a.usec ≤ b.usec)

/-- `expected_trade_date_bj` from the source: on a weekend, back up to
Friday; on a weekday, expect today from 17:30 Beijing time on, otherwise
the previous weekday before today. -/
def expected_trade_date_bj (now : BjDateTime) : String :=
  let today := now.date
  if 5 ≤ weekday today then
    fmtYmd (prev_weekday today)
  else
    let cutoff : BjDateTime := { now with hour := 17, minute := 30, second := 0, usec := 0 }
    if dtLe cutoff now then
      fmtYmd today
    else
      fmtYmd (prev_weekday (today - 1))

/-- Round-half-to-even to the nearest integer, the rounding mode of
Python's built-in `round`. -/
def rne (q : ℚ) : ℤ :=
  let f := ⌊q⌋
  let r := q - (f : ℚ)
  if r < 1 / 2 then f
  else if 1 / 2 < r then f + 1
  else if f % 2 = 0 then f else f + 1

/-- Python `round(x, 2)`. -/
def round2 (q : ℚ) : ℚ := ((rne (q * 100) : ℚ)) / 100

/-- Python `int(float(x))`: truncation toward zero. -/
def ratTrunc (q : ℚ) : ℤ := if q < 0 then ⌈q⌉ else ⌊q⌋

/-- A value the `amount` column of a fetched row can carry when it is
present and not null: a number, or the empty string the script guards
against. -/
inductive PyAmount where
  | num (q : ℚ)
  | emptyStr
  deriving DecidableEq

/-- One fetched daily bar.  `vol = none` models a null `vol` value (an
absent column yields the `get` default `0`, i.e. `some 0`); `amount =
none` models an absent or null `amount`.  `trade_date` is already a
string, as the script coerces it with `astype(str)` / `str()`. -/
structure Row where
  open_ : ℚ
  high : ℚ
  low : ℚ
  close : ℚ
  vol : Option ℚ
  amount : Option PyAmount
  trade_date : String
  deriving DecidableEq

/-- The JSON snapshot record built by `row_to_json`. -/
structure Snapshot where
  symbol : String
  date : String
  open_ : ℚ
  high : ℚ
  low : ℚ
  close : ℚ
  volume : ℤ
  amount : ℚ
  deriving DecidableEq

/-- `TS_CODE` from the source. -/
def TS_CODE : String := "02618.HK"

/-- `OUT_FILE` from the source. -/
def OUT_FILE : String := "jd-logistics-latest.json"

/-- `row_to_json` from the source: round prices to 2 decimals, truncate
volume to an integer, derive `amount` as `round(close * volume, 2)` when
it is missing, null or the empty string, and reformat the trade date as
`YYYY-MM-DD`. -/
def row_to_json (latest : Row) (ts_code : String) : Snapshot :=
  let volume_i : ℤ := match latest.vol with
    | none => 0
    | some q => ratTrunc q
  let amount_f : ℚ := match latest.amount with
    | none => round2 (latest.close * (volume_i : ℚ))
    | some PyAmount.emptyStr => round2 (latest.close * (volume_i : ℚ))
    | some (PyAmount.num q) => q
  let td := latest.trade_date
  let date_fmt := td.take 4 ++ "-" ++ (td.drop 4).take 2 ++ "-" ++ (td.drop 6).take 2
  { symbol := ts_code
    date := date_fmt
    open_ := round2 latest.open_
    high := round2 latest.high
    low := round2 latest.low
    close := round2 latest.close
    volume := volume_i
    amount := round2 amount_f }

/-- The state of the output file on disk: absent, present with content
`json.load` cannot parse as an object (any exception path), or present
and parsed, with its raw bytes and the value of its `"date"` field
(`none` when the field is missing or null). -/
inductive FileContent where
  | absent
  | malformed (raw : String)
  | parsed (raw : String) (dateField : Option String)
  deriving DecidableEq

/-- `load_existing_date` from the source: read the existing JSON's
`date` field (`YYYY-MM-DD`) and convert it to `YYYYMMDD`; a missing
file, a parse error, a missing/empty date or one whose length is not 10
all yield `none`. -/
def load_existing_date : FileContent → Option String
  | FileContent.absent => none
  | FileContent.malformed _ => none
  | FileContent.parsed _ none => none
  | FileContent.parsed _ (some d) =>
    if d = "" ∨ d.length ≠ 10 then none else some (stripDashes d)

/-- Insert a row into a list sorted ascending by `trade_date`, keeping
it after rows with an equal or smaller key (stable, like pandas
`sort_values`). -/
def insertByTradeDate (r : Row) : List Row → List Row
  | [] => [r]
  | x :: xs =>
    if strLt r.trade_date.data x.trade_date.data then r :: x :: xs
    else x :: insertByTradeDate r xs

/-- Stable sort of the fetched rows ascending by `trade_date`
(`df.sort_values("trade_date")`). -/
def sortByTradeDate (rows : List Row) : List Row :=
  rows.foldr insertByTradeDate []

/-- `fetch_hk_daily_latest` from the source, with the provider's
response as an explicit input (`none` for a null dataframe): an empty or
absent response yields no row, otherwise the last row after sorting by
`trade_date` (the latest bar).  The requested date range only shapes the
HTTP query and is not observable in the result. -/
def fetch_hk_daily_latest (response : Option (List Row)) : Option Row :=
  match response with
  | none => none
  | some rows =>
    if rows.isEmpty then none
    else (sortByTradeDate rows).getLast?

/-- `os.getenv("FORCE_UPDATE", "").strip().lower() in ("1", "true", "yes")`. -/
def isForce (force_env : Option String) : Bool :=
  let s := pyLower (pyStrip (force_env.getD ""))
  s = "1" || s = "true" || s = "yes"

/-- Deterministic stand-in for the bytes `json.dump(..., indent=2)`
writes.  No claim inspects the written bytes; only the fact that a write
replaces the file content matters. -/
def renderSnapshot (s : Snapshot) : String :=
  "\x7b \"symbol\": \"" ++ s.symbol ++ "\", \"date\": \"" ++ s.date ++ "\", \"open\": "
    ++ toString s.open_ ++ ", \"high\": " ++ toString s.high ++ ", \"low\": "
    ++ toString s.low ++ ", \"close\": " ++ toString s.close ++ ", \"volume\": "
    ++ toString s.volume ++ ", \"amount\": " ++ toString s.amount ++ " \x7d"

/-- Everything `main` reads from the outside world: the two environment
variables, the current Beijing time, the existing output file, and the
provider's response. -/
structure World where
  token : Option String
  force_env : Option String
  now : BjDateTime
  file : FileContent
  response : Option (List Row)

/-- Outcome of one run of `main`: an uncaught exception, or a normal
return carrying the final state of the output file and whether a write
happened. -/
inductive RunResult where
  | error (msg : String)
  | finished (file : FileContent) (wrote : Bool)
  deriving DecidableEq

/-- `main` from the source as a pure function of the world: check the
credential, compute the expected trade date, fetch, then apply the two
skip guards before writing the snapshot. -/
def main_run (w : World) : RunResult :=
  match w.token with
  | none => RunResult.error "Missing HK_MARKET_API_TOKEN in environment"
  | some tok =>
    if tok = "" then RunResult.error "Missing HK_MARKET_API_TOKEN in environment"
    else
      let expected_td := expected_trade_date_bj w.now
      match fetch_hk_daily_latest w.response with
      | none => RunResult.finished w.file false
      | some latest =>
        let latest_td := latest.trade_date
        let force := isForce w.force_env
        if strLt latest_td.data expected_td.data && !force then
          RunResult.finished w.file false
        else
          let data := row_to_json latest TS_CODE
          let existing_td := load_existing_date w.file
          if existing_td = some latest_td ∧ force = false then
            RunResult.finished w.file false
          else
            RunResult.finished
              (FileContent.parsed (renderSnapshot data) (some data.date)) true

/-- A day that is already a weekday is its own previous weekday. -/
lemma prev_weekday_last (d : Nat) (h : weekday d < 5) : prev_weekday d = d := by
  cases d with
  | zero => simp [weekday] at h
  | succ n =>
    simp only [prev_weekday]
    rw [if_neg (by omega)]

/-- Closed form of `prev_weekday` for ordinals ≥ 5: step back one day
from a Saturday, two from a Sunday, stay put otherwise. -/
lemma prev_weekday_eq (d : Nat) (h5 : 5 ≤ d) :
    prev_weekday d =
      if weekday d = 5 then d - 1 else if weekday d = 6 then d - 2 else d := by
  rcases Nat.lt_or_ge (weekday d) 5 with h | h
  · rw [prev_weekday_last d h, if_neg (by omega), if_neg (by omega)]
  · obtain ⟨k, rfl⟩ : ∃ k, d = k + 1 := ⟨d - 1, by omega⟩
    have hd : weekday (k + 1) = 5 ∨ weekday (k + 1) = 6 := by unfold weekday at *; omega
    rcases hd with h6 | h6
    · have hk : weekday k < 5 := by unfold weekday at h6 ⊢; omega
      rw [if_pos h6]
      simp only [prev_weekday]
      rw [if_pos h, prev_weekday_last k hk]
      omega
    · have hk1 : 6 ≤ k := by unfold weekday at h6; omega
      obtain ⟨j, rfl⟩ : ∃ j, k = j + 1 := ⟨k - 1, by omega⟩
      have hj5 : 5 ≤ weekday (j + 1) := by unfold weekday at h6 ⊢; omega
      have hjj : weekday j < 5 := by unfold weekday at h6 ⊢; omega
      rw [if_neg (by omega), if_pos h6]
      simp only [prev_weekday]
      rw [if_pos h, if_pos hj5, prev_weekday_last j hjj]
      omega

/-- From 17:30 on (with a well-formed minute field) the 17:30 cutoff
comparison holds. -/
lemma dtLe_cutoff_of_ge (now : BjDateTime) (hmin : now.minute < 60)
    (hcut : 17 * 60 + 30 ≤ now.hour * 60 + now.minute) :
    dtLe { now with hour := 17, minute := 30, second := 0, usec := 0 } now = true := by
  simp only [dtLe, ne_eq]
  split_ifs <;> simp_all <;> omega

/-- Before 17:30 the cutoff comparison fails. -/
lemma dtLe_cutoff_of_lt (now : BjDateTime)
    (hcut : now.hour * 60 + now.minute < 17 * 60 + 30) :
    dtLe { now with hour := 17, minute := 30, second := 0, usec := 0 } now = false := by
  simp only [dtLe, ne_eq]
  split_ifs <;> simp_all <;> omega

/-- C3: on a weekday at or after 17:30 Beijing time, the expected-date
estimator returns today's date formatted `YYYYMMDD`. -/
theorem c3_weekday_after_cutoff (now : BjDateTime)
    (hwd : weekday now.date < 5) (hmin : now.minute < 60)
    (hcut : 17 * 60 + 30 ≤ now.hour * 60 + now.minute) :
    expected_trade_date_bj now = fmtYmd now.date := by
  simp only [expected_trade_date_bj]
  rw [if_neg (by omega), if_pos (dtLe_cutoff_of_ge now hmin hcut)]

theorem c3_witness :
    weekday 738890 < 5 ∧ (30 : Nat) < 60 ∧ 17 * 60 + 30 ≤ 18 * 60 + 30 ∧
    expected_trade_date_bj ⟨738890, 18, 30, 0, 0⟩ = fmtYmd 738890 :=
  ⟨by decide, by decide, by decide,
    c3_weekday_after_cutoff ⟨738890, 18, 30, 0, 0⟩ (by decide) (by decide) (by decide)⟩

/-- C4: on a weekday strictly before 17:30 Beijing time, the estimator
returns `prev_weekday(today - 1 day)`, which is genuinely the prior
weekday: it is earlier than today, falls on a weekday, and every day
strictly between it and today is a Saturday or Sunday. -/
theorem c4_weekday_before_cutoff (now : BjDateTime)
    (hord : 7 ≤ now.date) (hwd : weekday now.date < 5)
    (hcut : now.hour * 60 + now.minute < 17 * 60 + 30) :
    expected_trade_date_bj now = fmtYmd (prev_weekday (now.date - 1)) ∧
    prev_weekday (now.date - 1) < now.date ∧
    weekday (prev_weekday (now.date - 1)) < 5 ∧
    ∀ q, prev_weekday (now.date - 1) < q → q < now.date → 5 ≤ weekday q := by
  have hbranch : expected_trade_date_bj now = fmtYmd (prev_weekday (now.date - 1)) := by
    simp only [expected_trade_date_bj]
    rw [if_neg (by omega), if_neg (by rw [dtLe_cutoff_of_lt now hcut]; exact Bool.false_ne_true)]
  refine ⟨hbranch, ?_, ?_, ?_⟩
  · rw [prev_weekday_eq (now.date - 1) (by omega)]
    split_ifs <;> unfold weekday at * <;> omega
  · rw [prev_weekday_eq (now.date - 1) (by omega)]
    split_ifs <;> unfold weekday at * <;> omega
  · intro q hq1 hq2
    rw [prev_weekday_eq (now.date - 1) (by omega)] at hq1
    split_ifs at hq1 <;> unfold weekday at * <;> omega

theorem c4_witness :
    (7 : Nat) ≤ 738893 ∧ weekday 738893 < 5 ∧ 10 * 60 + 0 < 17 * 60 + 30 ∧
    (expected_trade_date_bj ⟨738893, 10, 0, 0, 0⟩ = fmtYmd (prev_weekday (738893 - 1)) ∧
     prev_weekday (738893 - 1) < 738893 ∧
     weekday (prev_weekday (738893 - 1)) < 5 ∧
     ∀ q, prev_weekday (738893 - 1) < q → q < 738893 → 5 ≤ weekday q) :=
  ⟨by decide, by decide, by decide,
    c4_weekday_before_cutoff ⟨738893, 10, 0, 0, 0⟩ (by decide) (by decide) (by decide)⟩

/-- C5: on a Saturday or Sunday, at any time of day, the estimator
returns `prev_weekday(today)`, which is the preceding Friday: a Friday
earlier than today with only weekend days strictly in between. -/
theorem c5_weekend (now : BjDateTime) (h1 : 1 ≤ now.date)
    (hwd : 5 ≤ weekday now.date) :
    expected_trade_date_bj now = fmtYmd (prev_weekday now.date) ∧
    weekday (prev_weekday now.date) = 4 ∧
    prev_weekday now.date < now.date ∧
    ∀ q, prev_weekday now.date < q → q < now.date → 5 ≤ weekday q := by
  have hbranch : expected_trade_date_bj now = fmtYmd (prev_weekday now.date) := by
    simp only [expected_trade_date_bj]
    rw [if_pos hwd]
  have h5 : 5 ≤ now.date := by unfold weekday at hwd; omega
  refine ⟨hbranch, ?_, ?_, ?_⟩
  · rw [prev_weekday_eq now.date h5]
    split_ifs <;> unfold weekday at * <;> omega
  · rw [prev_weekday_eq now.date h5]
    split_ifs <;> unfold weekday at * <;> omega
  · intro q hq1 hq2
    rw [prev_weekday_eq now.date h5] at hq1
    split_ifs at hq1 <;> unfold weekday at * <;> omega

theorem c5_witness :
    (1 : Nat) ≤ 738891 ∧ 5 ≤ weekday 738891 ∧
    (expected_trade_date_bj ⟨738891, 9, 15, 0, 0⟩ = fmtYmd (prev_weekday 738891) ∧
     weekday (prev_weekday 738891) = 4 ∧
     prev_weekday 738891 < 738891 ∧
     ∀ q, prev_weekday 738891 < q → q < 738891 → 5 ≤ weekday q) :=
  ⟨by decide, by decide, c5_weekend ⟨738891, 9, 15, 0, 0⟩ (by decide) (by decide)⟩

/-- C10: whatever the current time, the estimator's result is the
formatted form of a weekday ordinal — never a Saturday or Sunday. -/
theorem c10_result_is_weekday (now : BjDateTime) (h : 7 ≤ now.date) :
    ∃ p, expected_trade_date_bj now = fmtYmd p ∧ weekday p < 5 := by
  simp only [expected_trade_date_bj]
  by_cases hw : 5 ≤ weekday now.date
  · rw [if_pos hw]
    refine ⟨prev_weekday now.date, rfl, ?_⟩
    rw [prev_weekday_eq now.date (by omega)]
    split_ifs <;> unfold weekday at * <;> omega
  · rw [if_neg hw]
    cases hdt : dtLe { now with hour := 17, minute := 30, second := 0, usec := 0 } now with
    | true =>
      rw [if_pos rfl]
      exact ⟨now.date, rfl, by omega⟩
    | false =>
      rw [if_neg Bool.false_ne_true]
      refine ⟨prev_weekday (now.date - 1), rfl, ?_⟩
      rw [prev_weekday_eq (now.date - 1) (by omega)]
      split_ifs <;> unfold weekday at * <;> omega

theorem c10_witness :
    (7 : Nat) ≤ 738892 ∧
    ∃ p, expected_trade_date_bj ⟨738892, 23, 59, 59, 999999⟩ = fmtYmd p ∧ weekday p < 5 :=
  ⟨by decide, c10_result_is_weekday ⟨738892, 23, 59, 59, 999999⟩ (by decide)⟩

/-- Rounding an integer to the nearest integer is the identity. -/
lemma rne_intCast (n : ℤ) : rne (n : ℚ) = n := by
  simp only [rne, Int.floor_intCast, sub_self]
  rw [if_pos (by norm_num : (0 : ℚ) < 1 / 2)]

/-- `round2` is idempotent: its result has at most two decimals, so a
second `round2` changes nothing. -/
lemma round2_round2 (q : ℚ) : round2 (round2 q) = round2 q := by
  unfold round2
  rw [div_mul_cancel₀ _ (by norm_num : (100 : ℚ) ≠ 0), rne_intCast]

/-- C6: when the fetched bar carries no `amount` (absent, null, or the
empty string), the output record's `amount` is `close × volume` rounded
to 2 decimals, where `volume` is the output's integer volume. -/
theorem c6_amount_derived (r : Row) (c : String)
    (h : r.amount = none ∨ r.amount = some PyAmount.emptyStr) :
    (row_to_json r c).amount = round2 (r.close * ((row_to_json r c).volume : ℚ)) := by
  rcases h with h | h <;> simp only [row_to_json, h] <;> exact round2_round2 _

theorem c6_witness :
    ((⟨10, 11, 9, 21 / 2, some 3, none, "20240105"⟩ : Row).amount = none ∨
     (⟨10, 11, 9, 21 / 2, some 3, none, "20240105"⟩ : Row).amount = some PyAmount.emptyStr) ∧
    (row_to_json ⟨10, 11, 9, 21 / 2, some 3, none, "20240105"⟩ TS_CODE).amount =
      round2 ((21 / 2 : ℚ) *
        ((row_to_json ⟨10, 11, 9, 21 / 2, some 3, none, "20240105"⟩ TS_CODE).volume : ℚ)) :=
  ⟨Or.inl rfl, c6_amount_derived ⟨10, 11, 9, 21 / 2, some 3, none, "20240105"⟩ TS_CODE (Or.inl rfl)⟩

/-- C7: a malformed file, a missing date field, or a date value that is
not 10 characters long all read back as "no prior date" (`none`),
without an error. -/
theorem c7_tolerant_load (f : FileContent)
    (h : (∃ raw, f = FileContent.malformed raw) ∨
         (∃ raw, f = FileContent.parsed raw none) ∨
         (∃ raw s, f = FileContent.parsed raw (some s) ∧ s.length ≠ 10)) :
    load_existing_date f = none := by
  rcases h with ⟨raw, rfl⟩ | ⟨raw, rfl⟩ | ⟨raw, s, rfl, hs⟩
  · rfl
  · rfl
  · simp only [load_existing_date]
    rw [if_pos (Or.inr hs)]

theorem c7_witness :
    ((∃ raw, (FileContent.parsed "x" (some "2024-1-5") : FileContent) = FileContent.malformed raw) ∨
     (∃ raw, (FileContent.parsed "x" (some "2024-1-5") : FileContent) = FileContent.parsed raw none) ∨
     (∃ raw s, (FileContent.parsed "x" (some "2024-1-5") : FileContent) = FileContent.parsed raw (some s) ∧
       s.length ≠ 10)) ∧
    load_existing_date (FileContent.parsed "x" (some "2024-1-5")) = none :=
  ⟨Or.inr (Or.inr ⟨"x", "2024-1-5", rfl, by decide⟩),
    c7_tolerant_load (FileContent.parsed "x" (some "2024-1-5"))
      (Or.inr (Or.inr ⟨"x", "2024-1-5", rfl, by decide⟩))⟩

/-- C1: after a successful fetch, if the stored date (converted to
`YYYYMMDD`) equals the fetched latest trade date and the force flag is
unset, `main` performs no write and the output file is unchanged
(whichever skip guard fires). -/
theorem c1_no_write_when_date_already_stored (w : World) (tok : String) (r : Row)
    (htok : w.token = some tok) (hne : tok ≠ "")
    (hfetch : fetch_hk_daily_latest w.response = some r)
    (hstored : load_existing_date w.file = some r.trade_date)
    (hforce : isForce w.force_env = false) :
    main_run w = RunResult.finished w.file false := by
  simp only [main_run, htok, hfetch, hforce, Bool.not_false, Bool.and_true]
  rw [if_neg hne]
  split
  · rfl
  · rw [if_pos ⟨hstored, trivial⟩]

/-- The world of the C1 witness run: a stored snapshot dated 2024-01-05
and a provider response whose single row has the same trade date. -/
def c1World : World :=
  { token := some "tk"
    force_env := none
    now := ⟨738890, 18, 0, 0, 0⟩
    file := FileContent.parsed "old bytes" (some "2024-01-05")
    response := some [⟨10, 11, 9, 10, some 100, some (PyAmount.num 1000), "20240105"⟩] }

theorem c1_witness :
    c1World.token = some "tk" ∧ "tk" ≠ "" ∧
    fetch_hk_daily_latest c1World.response =
      some ⟨10, 11, 9, 10, some 100, some (PyAmount.num 1000), "20240105"⟩ ∧
    load_existing_date c1World.file = some "20240105" ∧
    isForce c1World.force_env = false ∧
    main_run c1World = RunResult.finished c1World.file false :=
  ⟨rfl, by decide, by decide, by decide, by decide,
    c1_no_write_when_date_already_stored c1World "tk"
      ⟨10, 11, 9, 10, some 100, some (PyAmount.num 1000), "20240105"⟩
      rfl (by decide) (by decide) (by decide) (by decide)⟩

/-- C2: after a successful fetch, if the latest trade date is strictly
earlier (string order, i.e. date order on `YYYYMMDD`) than the expected
trade date and the force flag is unset, `main` skips without writing. -/
theorem c2_skip_when_latest_before_expected (w : World) (tok : String) (r : Row)
    (htok : w.token = some tok) (hne : tok ≠ "")
    (hfetch : fetch_hk_daily_latest w.response = some r)
    (hlt : strLt r.trade_date.data (expected_trade_date_bj w.now).data = true)
    (hforce : isForce w.force_env = false) :
    main_run w = RunResult.finished w.file false := by
  simp only [main_run, htok, hfetch, hforce, hlt, Bool.not_false, Bool.and_true]
  rw [if_neg hne, if_pos trivial]

/-- The world of the C2 witness run: expected date 2024-01-05 (a Friday
evening) but the provider's latest row is still 2024-01-04. -/
def c2World : World :=
  { token := some "tk"
    force_env := none
    now := ⟨738890, 18, 0, 0, 0⟩
    file := FileContent.absent
    response := some [⟨10, 11, 9, 10, some 100, some (PyAmount.num 1000), "20240104"⟩] }

theorem c2_witness :
    c2World.token = some "tk" ∧ "tk" ≠ "" ∧
    fetch_hk_daily_latest c2World.response =
      some ⟨10, 11, 9, 10, some 100, some (PyAmount.num 1000), "20240104"⟩ ∧
    strLt ("20240104" : String).data (expected_trade_date_bj c2World.now).data = true ∧
    isForce c2World.force_env = false ∧
    main_run c2World = RunResult.finished c2World.file false :=
  ⟨rfl, by decide, by decide, by decide, by decide,
    c2_skip_when_latest_before_expected c2World "tk"
      ⟨10, 11, 9, 10, some 100, some (PyAmount.num 1000), "20240104"⟩
      rfl (by decide) (by decide) (by decide) (by decide)⟩

/-- C8: an absent or empty provider response is "no data": `main`
returns normally (no exception) without writing, leaving the file as it
was. -/
theorem c8_no_data_exits_cleanly (w : World) (tok : String)
    (htok : w.token = some tok) (hne : tok ≠ "")
    (hresp : w.response = none ∨ w.response = some []) :
    main_run w = RunResult.finished w.file false := by
  have hf : fetch_hk_daily_latest w.response = none := by
    rcases hresp with h | h <;> simp [fetch_hk_daily_latest, h]
  simp only [main_run, htok, hf]
  rw [if_neg hne]

/-- The world of the C8 witness run: the provider returns nothing. -/
def c8World : World :=
  { token := some "tk"
    force_env := none
    now := ⟨738890, 18, 0, 0, 0⟩
    file := FileContent.parsed "old bytes" (some "2024-01-04")
    response := none }

theorem c8_witness :
    c8World.token = some "tk" ∧ "tk" ≠ "" ∧
    (c8World.response = none ∨ c8World.response = some []) ∧
    main_run c8World = RunResult.finished c8World.file false :=
  ⟨rfl, by decide, Or.inl rfl,
    c8_no_data_exits_cleanly c8World "tk" rfl (by decide) (Or.inl rfl)⟩

/-- C9: an absent or empty credential variable makes `main` raise
immediately, and the outcome is the same whatever the file and provider
hold — no file access or provider query can influence it. -/
theorem c9_missing_token_aborts (w : World)
    (h : w.token = none ∨ w.token = some "") :
    main_run w = RunResult.error "Missing HK_MARKET_API_TOKEN in environment" ∧
    ∀ file response,
      main_run { w with file := file, response := response } =
        RunResult.error "Missing HK_MARKET_API_TOKEN in environment" := by
  constructor
  · rcases h with h | h <;> simp [main_run, h]
  · intro file response
    rcases h with h | h <;> simp [main_run, h]

/-- The world of the C9 witness run: no credential in the environment. -/
def c9World : World :=
  { token := none
    force_env := none
    now := ⟨738890, 18, 0, 0, 0⟩
    file := FileContent.parsed "old bytes" (some "2024-01-04")
    response := some [⟨10, 11, 9, 10, some 100, some (PyAmount.num 1000), "20240105"⟩] }

theorem c9_witness :
    (c9World.token = none ∨ c9World.token = some "") ∧
    (main_run c9World = RunResult.error "Missing HK_MARKET_API_TOKEN in environment" ∧
     ∀ file response,
       main_run { c9World with file := file, response := response } =
         RunResult.error "Missing HK_MARKET_API_TOKEN in environment") :=
  ⟨Or.inl rfl, c9_missing_token_aborts c9World (Or.inl rfl)⟩
